import Mathlib

/-
Verification of the dicebot roll pipeline: the grammar parser, the roll
generator and the four result formatters, shallowly embedded from the
Python source (dicebot.py).  Roll texts are modelled as lists of
characters.  The fallible Python functions, which raise
DicebotException, are modelled as Except String computations carrying
the exception message.  The process-level random source consumed by
random.randint is modelled as an entropy oracle: a function from draw
index to a natural number, mapped into the closed interval [1, die].
-/

namespace Dicebot

/-- Models the Python expression input_roll_string.replace with a space
and the empty string: removes every space character, other whitespace is
kept. -/
def removeSpaces (s : List Char) : List Char :=
  s.filter (fun c => c ≠ ' ')

/-- Models the leading and trailing whitespace stripping performed by the
Python int constructor before reading the literal. -/
def pyStripWS (s : List Char) : List Char :=
  ((s.dropWhile Char.isWhitespace).reverse.dropWhile Char.isWhitespace).reverse

/-- Models how the Python int constructor reads an unsigned decimal
literal: a nonempty run of digits in which single underscores may appear
strictly between digits.  Returns the denoted value, or none when the
text is not such a literal. -/
def pyDigits (s : List Char) : Option Nat :=
  if s ≠ [] ∧ s.head? ≠ some '_' ∧ s.getLast? ≠ some '_' ∧
      s.all (fun c => c.isDigit || c == '_') ∧
      (s.zip (s.drop 1)).all (fun p => !(p.1 == '_' && p.2 == '_')) then
    some ((s.filter (fun c => c.isDigit)).foldl (fun a c => 10 * a + (c.toNat - 48)) 0)
  else
    none

/-- Models the Python int constructor on a string: optional surrounding
whitespace, an optional single leading sign, then an unsigned decimal
literal.  Returns none exactly when Python raises ValueError. -/
def pyInt (s : List Char) : Option Int :=
  match pyStripWS s with
  | '+' :: rest => (pyDigits rest).map (fun n => (n : Int))
  | '-' :: rest => (pyDigits rest).map (fun n => -(n : Int))
  | t => (pyDigits t).map (fun n => (n : Int))

/-- Models the Python str.find method for a single character: the index
of the first occurrence, or -1 when absent. -/
def pyFind (c : Char) (s : List Char) : Int :=
  match s.findIdx? (fun x => x == c) with
  | some i => (i : Int)
  | none => -1

/-- Models a Python slice s[a:b] with nonnegative bounds. -/
def pySlice (s : List Char) (a b : Nat) : List Char :=
  (s.drop a).take (b - a)

/-- The validated roll specification produced by parse_roll: the dict
with keys num_dice, die and modifier. -/
structure RollSpec where
  num_dice : Int
  die : Int
  modifier : Int
deriving Repr, DecidableEq

/-- The outcome produced by generate_roll: the dict with keys total,
rolls and modifier. -/
structure RollOutcome where
  total : Int
  rolls : List Int
  modifier : Int
deriving Repr, DecidableEq

/-- Mode pre-processing of parse_roll (dicebot.py lines 71 to 91): with
adv_or_dis the literal 2d20 is prefixed to the input, with character the
input is discarded in favour of the literal 3d6, otherwise the input is
used as given. -/
def effective_roll_string (input_string : List Char) (adv_or_dis : Bool)
    (character : Bool) : List Char :=
  if adv_or_dis then
    "2d20".toList ++ input_string
  else if character then
    "3d6".toList
  else
    input_string

/-- Final stage of parse_roll (dicebot.py lines 139 to 158): validate the
die value text, the positivity guards in source order, then the modifier
field; roll_modifier none models the Python literal integer zero assigned
when no sign is present. -/
def parse_tail (irs : List Char) (num_dice_val : Int) (die_value : List Char)
    (roll_modifier : Option (List Char)) : Except String RollSpec :=
  match pyInt die_value with
  | none => .error ("Non digit found in the dice value. Given " ++ String.mk irs)
  | some die_val =>
    if die_val ≤ 0 then
      .error ("Die value can not be 0 or less. Given " ++ String.mk irs)
    else if num_dice_val ≤ 0 then
      .error ("Number of dice can not be 0 or less. Given " ++ String.mk irs)
    else
      match roll_modifier with
      | none => .ok ⟨num_dice_val, die_val, 0⟩
      | some mtext =>
        match pyInt mtext with
        | none => .error ("Invalid roll modifer. Given " ++ String.mk irs)
        | some mval => .ok ⟨num_dice_val, die_val, mval⟩

/-- Modifier splitting of parse_roll (dicebot.py lines 115 to 137): the
first plus sign at a positive index wins, else the first minus sign at a
positive index, else no modifier.  The minus branch keeps the sign
character inside the modifier text. -/
def split_modifier (irs rs : List Char) (d_position : Nat) (num_dice_val : Int) :
    Except String RollSpec :=
  if 0 < pyFind '+' rs then
    if (pySlice rs (d_position + 1) (pyFind '+' rs).toNat).length = 0 then
      .error ("No dice value provided. Given " ++ String.mk irs)
    else
      parse_tail irs num_dice_val (pySlice rs (d_position + 1) (pyFind '+' rs).toNat)
        (some (rs.drop ((pyFind '+' rs).toNat + 1)))
  else if 0 < pyFind '-' rs then
    if (pySlice rs (d_position + 1) (pyFind '-' rs).toNat).length = 0 then
      .error ("No dice value provided. Given " ++ String.mk irs)
    else
      parse_tail irs num_dice_val (pySlice rs (d_position + 1) (pyFind '-' rs).toNat)
        (some (rs.drop (pyFind '-' rs).toNat))
  else
    if (rs.drop (d_position + 1)).length = 0 then
      .error ("No dice value provided. Given " ++ String.mk irs)
    else
      parse_tail irs num_dice_val (rs.drop (d_position + 1)) none

/-- Body of parse_roll after whitespace removal (dicebot.py lines 96 to
158): length window check, position of the letter d, integer check on the
dice count text, then modifier splitting.  irs is the pre-strip text used
in most error messages, rs the stripped roll string. -/
def parse_roll_core (irs rs : List Char) : Except String RollSpec :=
  if rs.length < 3 ∨ 11 < rs.length then
    .error ("Roll string too short. Given " ++ String.mk rs)
  else if pyFind 'd' rs < 0 then
    .error ("d found in incorrect position. Given " ++ String.mk irs)
  else
    match pyInt (rs.take (pyFind 'd' rs).toNat) with
    | none => .error ("Non digit found in the number of dice provided. Given " ++ String.mk irs)
    | some num_dice_val => split_modifier irs rs (pyFind 'd' rs).toNat num_dice_val

/-- parse_roll (dicebot.py lines 50 to 158). -/
def parse_roll (input_string : List Char) (adv_or_dis : Bool) (character : Bool) :
    Except String RollSpec :=
  let input_roll_string := effective_roll_string input_string adv_or_dis character
  parse_roll_core input_roll_string (removeSpaces input_roll_string)

/-- generate_roll (dicebot.py lines 161 to 202).  The dict shape and
numeric casts of the source are guaranteed by the RollSpec type; the two
positivity guards are kept in source order.  Each call to
random.randint with bounds one and die_value is modelled by mapping the
entropy oracle at the draw index into [1, die]. -/
def generate_roll (roll_dict : RollSpec) (entropy : Nat → Nat) :
    Except String RollOutcome :=
  if roll_dict.num_dice ≤ 0 then
    .error "Invalid number of dice."
  else if roll_dict.die ≤ 0 then
    .error "Invalid die value."
  else
    let rolls := (List.range roll_dict.num_dice.toNat).map
      (fun x => 1 + ((entropy x : Int) % roll_dict.die))
    .ok ⟨rolls.sum + roll_dict.modifier, rolls, roll_dict.modifier⟩

/-- format_standard_roll (dicebot.py lines 278 to 334).  The string casts
of the source cannot fail on typed values, so the function is total.  The
per-die breakdown and the modifier breakdown are commented out in the
source, leaving only the dice expression and the emphasized total inside
the italic wrapper. -/
def format_standard_roll (rolled_dice : RollOutcome) (username : String)
    (roll : RollSpec) : String :=
  "_" ++ (username ++ " rolled " ++ toString roll.num_dice ++ "d" ++
    toString roll.die ++ " = ") ++
  ("*" ++ toString rolled_dice.total ++ "*") ++ "_" ++ "\n"

/-- format_adv_dis_roll (dicebot.py lines 337 to 408).  The two source if
statements inside each of the adv and dis blocks have complementary
guards, rendered here as a single if; the variable result, assigned only
inside those blocks, is modelled as an Option on which the final total
line is an unqualified read (a NameError when both blocks were skipped,
with the later assignment from the dis block winning when both ran).
Reading the two dice is fallible: fewer than two rolls raises IndexError,
converted by the source into the block exception message. -/
def format_adv_dis_roll (rolled_dice : RollOutcome) (username : String)
    (roll : RollSpec) (adv : Bool) (dis : Bool) : Except String String :=
  let header : List String :=
    (if adv then [username ++ " rolled at Advantage:"] else []) ++
    (if dis then [username ++ " rolled at Disadvantage:"] else []) ++ ["\n"]
  if roll.num_dice ≠ 2 then
    .error "Trying to format adv/dis roll with more than 2d20"
  else
    let advStep : Except String (List String × Option Int) :=
      if adv then
        match rolled_dice.rolls with
        | r0 :: r1 :: _ =>
          if r0 ≥ r1 then
            .ok (["*" ++ toString r0 ++ "*", " ", "~" ++ toString r1 ++ "~"], some r0)
          else
            .ok (["~" ++ toString r0 ++ "~", " ", "*" ++ toString r1 ++ "*"], some r1)
        | _ => .error "format_adv_dis_roll had a problem rolling at advantage"
      else .ok ([], none)
    match advStep with
    | .error e => .error e
    | .ok (advText, advResult) =>
      let disStep : Except String (List String × Option Int) :=
        if dis then
          match rolled_dice.rolls with
          | r0 :: r1 :: _ =>
            if r0 ≤ r1 then
              .ok (["*" ++ toString r0 ++ "*", " ", "~" ++ toString r1 ++ "~"], some r0)
            else
              .ok (["~" ++ toString r0 ++ "~", " ", "*" ++ toString r1 ++ "*"], some r1)
          | _ => .error "format_adv_dis_roll had a problem rolling at disadvantage"
        else .ok ([], none)
      match disStep with
      | .error e => .error e
      | .ok (disText, disResult) =>
        match disResult, advResult with
        | none, none => .error "NameError: result is not defined"
        | some result, _ | none, some result =>
          .ok (String.join (header ++ advText ++ disText ++
            (if rolled_dice.modifier > 0 then [" (+" ++ toString rolled_dice.modifier ++ ")"]
             else []) ++
            (if rolled_dice.modifier < 0 then [" (" ++ toString rolled_dice.modifier ++ ")"]
             else []) ++
            [" = ", "*" ++ toString (result + rolled_dice.modifier) ++ "*", "\n"]))

/-- Loop body of format_character_roll (dicebot.py lines 441 to 453): sort
the rolls ascending with the stable sort used by the Python sorted
builtin, then read the four smallest entries.  Fewer than four rolls
raises IndexError, converted by the source into the statblock exception
message; any rolls past the fourth smallest are silently ignored. -/
def format_one_stat (roll : RollOutcome) : Except String String :=
  match roll.rolls.insertionSort (fun a b => a ≤ b) with
  | s0 :: s1 :: s2 :: s3 :: _ =>
    .ok ("~" ++ toString s0 ++ "~ " ++ (toString s1 ++ " + ") ++
      (toString s2 ++ " + ") ++ (toString s3 ++ " = ") ++
      ("*" ++ toString (s1 + s2 + s3) ++ "*"))
  | _ => .error "Unable to print statblock"

/-- The loop of format_character_roll over the outcome list: each rendered
line is followed by a newline, and the first failing outcome aborts the
whole rendering, as the raised exception does in the source. -/
def statblock_lines : List RollOutcome → Except String String
  | [] => .ok ""
  | r :: rest =>
    match format_one_stat r with
    | .error e => .error e
    | .ok line =>
      match statblock_lines rest with
      | .error e => .error e
      | .ok restText => .ok (line ++ "\n" ++ restText)

/-- format_character_roll (dicebot.py lines 411 to 455): header, a guard
requiring exactly six outcomes, then one line per outcome. -/
def format_character_roll (roll_list : List RollOutcome) (username : String) :
    Except String String :=
  if roll_list.length ≠ 6 then
    .error "Incorrect number of rolls in the stat block"
  else
    match statblock_lines roll_list with
    | .error e => .error e
    | .ok body => .ok (username ++ " rolled a stat block:" ++ "\n" ++ body)

/-- The generation loop of the character route (dicebot.py lines 569 to
571): one generate_roll call per listed index, each consuming its own
entropy, aborted by the first failure. -/
def gen_list (parsed : RollSpec) (entropy : Nat → Nat → Nat) :
    List Nat → Except String (List RollOutcome)
  | [] => .ok []
  | x :: xs =>
    match generate_roll parsed (entropy x) with
    | .error e => .error e
    | .ok o =>
      match gen_list parsed entropy xs with
      | .error e => .error e
      | .ok rest => .ok (o :: rest)

/-- The character route pipeline (dicebot.py lines 557 to 583) after the
transport layer has extracted the command text and username: parse in
character mode, generate six outcomes, format the stat block. -/
def character_command (input_text : List Char) (username : String)
    (entropy : Nat → Nat → Nat) : Except String String :=
  match parse_roll input_text false true with
  | .error e => .error e
  | .ok parsed =>
    match gen_list parsed entropy (List.range 6) with
    | .error e => .error e
    | .ok roll => format_character_roll roll username

/-! Helper lemmas shared by the claim theorems. -/

theorem parse_roll_character_mode (s : List Char) :
    parse_roll s false true = .ok ⟨3, 6, 0⟩ := rfl

theorem generate_roll_char_shape (g : Nat → Nat) :
    ∃ a b c t, generate_roll ⟨3, 6, 0⟩ g = .ok ⟨t, [a, b, c], 0⟩ :=
  ⟨_, _, _, _, rfl⟩

theorem format_one_stat_short (o : RollOutcome) (h : o.rolls.length < 4) :
    format_one_stat o = .error "Unable to print statblock" := by
  have hlen : (o.rolls.insertionSort (fun a b => a ≤ b)).length < 4 := by
    rw [List.length_insertionSort]; exact h
  unfold format_one_stat
  generalize o.rolls.insertionSort (fun a b => a ≤ b) = s at hlen ⊢
  rcases s with _ | ⟨s0, _ | ⟨s1, _ | ⟨s2, _ | ⟨s3, rest⟩⟩⟩⟩
  · rfl
  · rfl
  · rfl
  · rfl
  · simp only [List.length_cons] at hlen; omega

theorem format_one_stat_long (o : RollOutcome) (h : 4 ≤ o.rolls.length) :
    ∃ line, format_one_stat o = .ok line := by
  have hlen : 4 ≤ (o.rolls.insertionSort (fun a b => a ≤ b)).length := by
    rw [List.length_insertionSort]; exact h
  unfold format_one_stat
  generalize o.rolls.insertionSort (fun a b => a ≤ b) = s at hlen ⊢
  rcases s with _ | ⟨s0, _ | ⟨s1, _ | ⟨s2, _ | ⟨s3, rest⟩⟩⟩⟩ <;>
    simp only [List.length_cons, List.length_nil] at hlen
  · omega
  · omega
  · omega
  · omega
  · exact ⟨_, rfl⟩

theorem statblock_lines_short (l : List RollOutcome)
    (h : ∃ o ∈ l, o.rolls.length < 4) :
    statblock_lines l = .error "Unable to print statblock" := by
  induction l with
  | nil => obtain ⟨o, ho, _⟩ := h; simp at ho
  | cons r rest ih =>
    by_cases hr : r.rolls.length < 4
    · simp only [statblock_lines, format_one_stat_short r hr]
    · obtain ⟨o, ho, hlen⟩ := h
      rcases List.mem_cons.mp ho with rfl | htail
      · exact absurd hlen hr
      · obtain ⟨line, hline⟩ := format_one_stat_long r (by omega)
        simp only [statblock_lines, hline, ih ⟨o, htail, hlen⟩]

theorem statblock_lines_long (l : List RollOutcome)
    (h : ∀ o ∈ l, 4 ≤ o.rolls.length) :
    ∃ body, statblock_lines l = .ok body := by
  induction l with
  | nil => exact ⟨"", rfl⟩
  | cons r rest ih =>
    obtain ⟨line, hline⟩ := format_one_stat_long r (h r (List.mem_cons_self r rest))
    obtain ⟨body, hbody⟩ := ih (fun o ho => h o (List.mem_cons_of_mem r ho))
    exact ⟨line ++ "\n" ++ body, by simp only [statblock_lines, hline, hbody]⟩

theorem parse_tail_ok (irs : List Char) (n : Int) (dv : List Char)
    (rm : Option (List Char)) (spec : RollSpec)
    (h : parse_tail irs n dv rm = .ok spec) :
    spec.num_dice = n ∧ 0 < spec.num_dice ∧ pyInt dv = some spec.die ∧ 0 < spec.die ∧
      ((rm = none ∧ spec.modifier = 0) ∨
        (∃ t, rm = some t ∧ pyInt t = some spec.modifier)) := by
  unfold parse_tail at h
  split at h
  · exact absurd h (by simp)
  · rename_i die_val hdv
    split at h
    · exact absurd h (by simp)
    · split at h
      · exact absurd h (by simp)
      · rename_i hdle hnle
        split at h
        · cases h
          exact ⟨rfl, (show (0 : Int) < n by omega), hdv,
            (show (0 : Int) < die_val by omega), Or.inl ⟨rfl, rfl⟩⟩
        · rename_i mval
          split at h
          · exact absurd h (by simp)
          · rename_i mval2 hmv
            cases h
            exact ⟨rfl, (show (0 : Int) < n by omega), hdv,
              (show (0 : Int) < die_val by omega), Or.inr ⟨mval, rfl, hmv⟩⟩

theorem split_modifier_ok (irs rs : List Char) (d : Nat) (n : Int) (spec : RollSpec)
    (h : split_modifier irs rs d n = .ok spec) :
    spec.num_dice = n ∧ 0 < spec.num_dice ∧ 0 < spec.die ∧
      ((0 < pyFind '+' rs ∧
          pyInt (pySlice rs (d + 1) (pyFind '+' rs).toNat) = some spec.die ∧
          pyInt (rs.drop ((pyFind '+' rs).toNat + 1)) = some spec.modifier) ∨
        (¬ 0 < pyFind '+' rs ∧ 0 < pyFind '-' rs ∧
          pyInt (pySlice rs (d + 1) (pyFind '-' rs).toNat) = some spec.die ∧
          pyInt (rs.drop (pyFind '-' rs).toNat) = some spec.modifier) ∨
        (¬ 0 < pyFind '+' rs ∧ ¬ 0 < pyFind '-' rs ∧
          pyInt (rs.drop (d + 1)) = some spec.die ∧ spec.modifier = 0)) := by
  unfold split_modifier at h
  split at h
  · rename_i hplus
    split at h
    · exact absurd h (by simp)
    · obtain ⟨hn, hpos, hdie, hdpos, hmod⟩ := parse_tail_ok _ _ _ _ _ h
      refine ⟨hn, hpos, hdpos, Or.inl ⟨hplus, hdie, ?_⟩⟩
      rcases hmod with ⟨hnone, _⟩ | ⟨t, ht, hmv⟩
      · cases hnone
      · cases ht; exact hmv
  · rename_i hplus
    split at h
    · rename_i hminus
      split at h
      · exact absurd h (by simp)
      · obtain ⟨hn, hpos, hdie, hdpos, hmod⟩ := parse_tail_ok _ _ _ _ _ h
        refine ⟨hn, hpos, hdpos, Or.inr (Or.inl ⟨hplus, hminus, hdie, ?_⟩)⟩
        rcases hmod with ⟨hnone, _⟩ | ⟨t, ht, hmv⟩
        · cases hnone
        · cases ht; exact hmv
    · rename_i hminus
      split at h
      · exact absurd h (by simp)
      · obtain ⟨hn, hpos, hdie, hdpos, hmod⟩ := parse_tail_ok _ _ _ _ _ h
        refine ⟨hn, hpos, hdpos, Or.inr (Or.inr ⟨hplus, hminus, hdie, ?_⟩)⟩
        rcases hmod with ⟨_, hzero⟩ | ⟨t, ht, _⟩
        · exact hzero
        · cases ht

theorem parse_roll_core_ok (irs rs : List Char) (spec : RollSpec)
    (h : parse_roll_core irs rs = .ok spec) :
    (3 ≤ rs.length ∧ rs.length ≤ 11) ∧ 0 ≤ pyFind 'd' rs ∧
      pyInt (rs.take (pyFind 'd' rs).toNat) = some spec.num_dice ∧
      split_modifier irs rs (pyFind 'd' rs).toNat spec.num_dice = .ok spec := by
  unfold parse_roll_core at h
  split at h
  · exact absurd h (by simp)
  · rename_i hlen
    split at h
    · exact absurd h (by simp)
    · rename_i hd
      split at h
      · exact absurd h (by simp)
      · rename_i n hn
        have hspec := split_modifier_ok _ _ _ _ _ h
        obtain ⟨hne, _, _, _⟩ := hspec
        refine ⟨by omega, by omega, ?_, ?_⟩
        · rw [hn, hne]
        · rw [hne]; exact h

/-! Claim theorems. -/

/-- C1: for every input text, username and entropy source, the character
route pipeline, which parses in character mode to a three dice
specification while the stat block formatter reads a fourth sorted roll
from each outcome, always fails with the statblock formatting error and
never produces a formatted stat block. -/
theorem character_route_always_fails (input_text : List Char) (username : String)
    (entropy : Nat → Nat → Nat) :
    character_command input_text username entropy = .error "Unable to print statblock" := by
  obtain ⟨a0, b0, c0, t0, h0⟩ := generate_roll_char_shape (entropy 0)
  obtain ⟨a1, b1, c1, t1, h1⟩ := generate_roll_char_shape (entropy 1)
  obtain ⟨a2, b2, c2, t2, h2⟩ := generate_roll_char_shape (entropy 2)
  obtain ⟨a3, b3, c3, t3, h3⟩ := generate_roll_char_shape (entropy 3)
  obtain ⟨a4, b4, c4, t4, h4⟩ := generate_roll_char_shape (entropy 4)
  obtain ⟨a5, b5, c5, t5, h5⟩ := generate_roll_char_shape (entropy 5)
  have hrange : List.range 6 = [0, 1, 2, 3, 4, 5] := rfl
  simp only [character_command, parse_roll_character_mode, hrange, gen_list,
    h0, h1, h2, h3, h4, h5]
  have hfmt :
      format_character_roll
        [⟨t0, [a0, b0, c0], 0⟩, ⟨t1, [a1, b1, c1], 0⟩, ⟨t2, [a2, b2, c2], 0⟩,
         ⟨t3, [a3, b3, c3], 0⟩, ⟨t4, [a4, b4, c4], 0⟩, ⟨t5, [a5, b5, c5], 0⟩]
        username = .error "Unable to print statblock" := by
    have hshort : statblock_lines
        [(⟨t0, [a0, b0, c0], 0⟩ : RollOutcome), ⟨t1, [a1, b1, c1], 0⟩,
         ⟨t2, [a2, b2, c2], 0⟩, ⟨t3, [a3, b3, c3], 0⟩, ⟨t4, [a4, b4, c4], 0⟩,
         ⟨t5, [a5, b5, c5], 0⟩] = .error "Unable to print statblock" :=
      statblock_lines_short _ ⟨⟨t0, [a0, b0, c0], 0⟩, by simp, by simp⟩
    simp only [format_character_roll, hshort]
    rfl
  exact hfmt

/-- C2: contrary to the documented range of one to 99 dice with one to
100 faces, the parser accepts 999d1 and 1d101, because only the total
text length and strict positivity are checked. -/
theorem parse_roll_accepts_out_of_range :
    parse_roll "999d1".toList false false = .ok ⟨999, 1, 0⟩ ∧
    parse_roll "1d101".toList false false = .ok ⟨1, 101, 0⟩ :=
  ⟨rfl, rfl⟩

/-- C3 counterexample: a leading plus sign in the dice count text does
not raise, because the integer conversion accepts a signed literal, so
the roll text +2d6 parses as two dice of six faces (the plus sign at
index zero is not treated as a modifier separator). -/
theorem plus_sign_dice_count_counterexample :
    parse_roll "+2d6".toList false false = .ok ⟨2, 6, 0⟩ := rfl

/-- C3 amended: the text before the first letter d must convert as a
Python integer literal, which admits one optional leading sign, and the
converted value must be strictly positive for the parse to succeed;
content that is not such a literal or a value at most zero is rejected,
while a leading plus sign as in +2d6 is accepted. -/
theorem num_dice_part_signed_amended :
    (∀ (s : List Char) (spec : RollSpec), parse_roll s false false = .ok spec →
      0 ≤ pyFind 'd' (removeSpaces s) ∧
      pyInt ((removeSpaces s).take (pyFind 'd' (removeSpaces s)).toNat) =
        some spec.num_dice ∧
      0 < spec.num_dice) ∧
    parse_roll "+2d6".toList false false = .ok ⟨2, 6, 0⟩ ∧
    parse_roll "-2d6".toList false false =
      .error "Number of dice can not be 0 or less. Given -2d6" ∧
    parse_roll "x2d6".toList false false =
      .error "Non digit found in the number of dice provided. Given x2d6" := by
  refine ⟨?_, rfl, rfl, rfl⟩
  intro s spec h
  obtain ⟨hlen, hdpos, hnum, hsplit⟩ := parse_roll_core_ok _ _ _ h
  obtain ⟨_, hpos, _, _⟩ := split_modifier_ok _ _ _ _ _ hsplit
  exact ⟨hdpos, hnum, hpos⟩

/-- C3 witness: the amended statement applied to the concrete roll text
2d6, whose dice count text converts to the positive value two. -/
theorem num_dice_part_signed_amended_witness :
    0 ≤ pyFind 'd' (removeSpaces "2d6".toList) ∧
    pyInt ((removeSpaces "2d6".toList).take
      (pyFind 'd' (removeSpaces "2d6".toList)).toNat) = some 2 ∧
    (0 : Int) < 2 :=
  num_dice_part_signed_amended.1 "2d6".toList ⟨2, 6, 0⟩ rfl

/-- C4: on every specification with at least one die of at least one
face, generation succeeds with exactly the requested number of rolls,
every roll inside the closed interval from one to the die size, the
total equal to the roll sum plus the modifier, and every roll equal to
one when the die has a single face. -/
theorem generate_roll_spec_correct (spec : RollSpec) (g : Nat → Nat)
    (hn : 1 ≤ spec.num_dice) (hd : 1 ≤ spec.die) :
    ∃ o, generate_roll spec g = .ok o ∧
      (o.rolls.length : Int) = spec.num_dice ∧
      (∀ r ∈ o.rolls, 1 ≤ r ∧ r ≤ spec.die) ∧
      o.total = o.rolls.sum + spec.modifier ∧
      (spec.die = 1 → ∀ r ∈ o.rolls, r = 1) := by
  refine ⟨⟨((List.range spec.num_dice.toNat).map
      (fun x => 1 + ((g x : Int) % spec.die))).sum + spec.modifier,
      (List.range spec.num_dice.toNat).map (fun x => 1 + ((g x : Int) % spec.die)),
      spec.modifier⟩, ?_, ?_, ?_, ?_, ?_⟩
  · unfold generate_roll
    rw [if_neg (by omega), if_neg (by omega)]
  · simp only [List.length_map, List.length_range]
    omega
  · intro r hr
    simp only [List.mem_map, List.mem_range] at hr
    obtain ⟨x, _, rfl⟩ := hr
    have h0 : 0 ≤ ((g x : Int) % spec.die) :=
      Int.emod_nonneg _ (by omega)
    have h1 : ((g x : Int) % spec.die) < spec.die :=
      Int.emod_lt_of_pos _ (by omega)
    omega
  · rfl
  · intro h1 r hr
    simp only [List.mem_map, List.mem_range] at hr
    obtain ⟨x, _, rfl⟩ := hr
    rw [h1, Int.emod_one]
    rfl

/-- C4 witness: the generation statement applied to two six sided dice
with modifier three and the constant zero entropy source. -/
theorem generate_roll_spec_correct_witness :
    ∃ o, generate_roll ⟨2, 6, 3⟩ (fun _ => 0) = .ok o ∧
      (o.rolls.length : Int) = 2 ∧
      (∀ r ∈ o.rolls, 1 ≤ r ∧ r ≤ 6) ∧
      o.total = o.rolls.sum + 3 ∧
      ((6 : Int) = 1 → ∀ r ∈ o.rolls, r = 1) :=
  generate_roll_spec_correct ⟨2, 6, 3⟩ (fun _ => 0) (by decide) (by decide)

/-- C6: with the advantage or disadvantage flag the effective roll text
is the literal 2d20 followed by the input text, so a bare modifier such
as +2 yields two dice of twenty faces with modifier two; with the
character flag the input text is ignored and the parse is always three
dice of six faces with modifier zero. -/
theorem mode_preprocessing_correct :
    (∀ (s : List Char) (c : Bool),
      parse_roll s true c = parse_roll ("2d20".toList ++ s) false false) ∧
    parse_roll "+2".toList true false = .ok ⟨2, 20, 2⟩ ∧
    (∀ s : List Char, parse_roll s false true = .ok ⟨3, 6, 0⟩) :=
  ⟨fun _ _ => rfl, rfl, fun _ => rfl⟩

/-- C9 counterexample: a further sign character past the first split
does not always make the parse fail: in 2d6+-2 the modifier field is the
literal -2, a valid signed integer literal, so the parse succeeds with
modifier minus two. -/
theorem modifier_double_sign_counterexample :
    parse_roll "2d6+-2".toList false false = .ok ⟨2, 6, -2⟩ := rfl

/-- C9 amended: modifier splitting uses the first sign character only, a
remainder with no plus but a minus as in 2d2-3 splits at the first minus
giving modifier minus three, and on every successful parse the modifier
equals the integer conversion of the literal tail after the first split;
further sign characters stay in that literal text, whose conversion
fails for a tail such as 1-2, raising the modifier parse error, but
succeeds when the tail is itself a signed literal such as -2. -/
theorem modifier_first_sign_split_amended :
    parse_roll "2d2-3".toList false false = .ok ⟨2, 2, -3⟩ ∧
    parse_roll "2d6+1-2".toList false false =
      .error "Invalid roll modifer. Given 2d6+1-2" ∧
    parse_roll "2d6+-2".toList false false = .ok ⟨2, 6, -2⟩ ∧
    (∀ (s : List Char) (spec : RollSpec), parse_roll s false false = .ok spec →
      (0 < pyFind '+' (removeSpaces s) →
        pyInt ((removeSpaces s).drop ((pyFind '+' (removeSpaces s)).toNat + 1)) =
          some spec.modifier) ∧
      (¬ 0 < pyFind '+' (removeSpaces s) → 0 < pyFind '-' (removeSpaces s) →
        pyInt ((removeSpaces s).drop (pyFind '-' (removeSpaces s)).toNat) =
          some spec.modifier)) := by
  refine ⟨rfl, rfl, rfl, ?_⟩
  intro s spec h
  obtain ⟨_, _, _, hsplit⟩ := parse_roll_core_ok _ _ _ h
  obtain ⟨_, _, _, hcases⟩ := split_modifier_ok _ _ _ _ _ hsplit
  constructor
  · intro hplus
    rcases hcases with ⟨_, _, hmod⟩ | ⟨hnp, _, _, _⟩ | ⟨hnp, _, _, _⟩
    · exact hmod
    · exact absurd hplus hnp
    · exact absurd hplus hnp
  · intro hnp hminus
    rcases hcases with ⟨hplus, _, _⟩ | ⟨_, _, _, hmod⟩ | ⟨_, hnm, _, _⟩
    · exact absurd hplus hnp
    · exact hmod
    · exact absurd hminus hnm

/-- C9 witness: the amended statement applied to the roll text 2d2-3,
whose modifier tail from the first minus converts to minus three. -/
theorem modifier_first_sign_split_amended_witness :
    pyInt ((removeSpaces "2d2-3".toList).drop
      (pyFind '-' (removeSpaces "2d2-3".toList)).toNat) = some (-3 : Int) :=
  (modifier_first_sign_split_amended.2.2.2 "2d2-3".toList ⟨2, 2, -3⟩ rfl).2
    (by decide) (by decide)

/-- C10: the parser rejects every roll text whose stripped length falls
outside the window from three to eleven characters, and rejects the
malformed standard mode inputs 0d6, 2d0, 2x6, d6 and 2d. -/
theorem parse_roll_rejects_malformed :
    (∀ s : List Char,
      (removeSpaces s).length < 3 ∨ 11 < (removeSpaces s).length →
      parse_roll s false false =
        .error ("Roll string too short. Given " ++ String.mk (removeSpaces s))) ∧
    parse_roll "0d6".toList false false =
      .error "Number of dice can not be 0 or less. Given 0d6" ∧
    parse_roll "2d0".toList false false =
      .error "Die value can not be 0 or less. Given 2d0" ∧
    parse_roll "2x6".toList false false =
      .error "d found in incorrect position. Given 2x6" ∧
    parse_roll "d6".toList false false =
      .error "Roll string too short. Given d6" ∧
    parse_roll "2d".toList false false =
      .error "Roll string too short. Given 2d" := by
  refine ⟨?_, rfl, rfl, rfl, rfl, rfl⟩
  intro s h
  show parse_roll_core s (removeSpaces s) = _
  unfold parse_roll_core
  rw [if_pos h]

/-- C10 witness: the length window statement applied to the two
character roll text 2d, which is below the minimum length of three. -/
theorem parse_roll_rejects_malformed_witness :
    parse_roll "2d".toList false false =
      .error ("Roll string too short. Given " ++ String.mk (removeSpaces "2d".toList)) :=
  parse_roll_rejects_malformed.1 "2d".toList (by decide)

/-- C8: the standard formatter renders exactly the dice expression and
the emphasized total inside the italic underscore wrapper, and its
output is independent of the individual die faces and of the modifier
of the outcome. -/
theorem standard_roll_renders_total_only (o : RollOutcome) (u : String) (r : RollSpec) :
    format_standard_roll o u r =
      "_" ++ (u ++ " rolled " ++ toString r.num_dice ++ "d" ++ toString r.die ++ " = ") ++
      ("*" ++ toString o.total ++ "*") ++ "_" ++ "\n" ∧
    (∀ (rolls1 rolls2 : List Int) (m1 m2 t : Int),
      format_standard_roll ⟨t, rolls1, m1⟩ u r = format_standard_roll ⟨t, rolls2, m2⟩ u r) :=
  ⟨rfl, fun _ _ _ _ _ => rfl⟩

/-- C5: on a two roll outcome the advantage formatter keeps the first
roll exactly when it is at least the second, the disadvantage formatter
keeps the first exactly when it is at most the second, the two dice are
rendered in roll order with the kept one between asterisks and the
dropped one between tildes, and the final emphasized total is the kept
roll plus the modifier. -/
theorem adv_dis_keep_and_render (t a b m dv mr : Int) (u : String) :
    format_adv_dis_roll ⟨t, [a, b], m⟩ u ⟨2, dv, mr⟩ true false =
      .ok (String.join ([u ++ " rolled at Advantage:", "\n"] ++
        (if a ≥ b then ["*" ++ toString a ++ "*", " ", "~" ++ toString b ++ "~"]
         else ["~" ++ toString a ++ "~", " ", "*" ++ toString b ++ "*"]) ++
        (if m > 0 then [" (+" ++ toString m ++ ")"] else []) ++
        (if m < 0 then [" (" ++ toString m ++ ")"] else []) ++
        [" = ", "*" ++ toString ((if a ≥ b then a else b) + m) ++ "*", "\n"])) ∧
    format_adv_dis_roll ⟨t, [a, b], m⟩ u ⟨2, dv, mr⟩ false true =
      .ok (String.join ([u ++ " rolled at Disadvantage:", "\n"] ++
        (if a ≤ b then ["*" ++ toString a ++ "*", " ", "~" ++ toString b ++ "~"]
         else ["~" ++ toString a ++ "~", " ", "*" ++ toString b ++ "*"]) ++
        (if m > 0 then [" (+" ++ toString m ++ ")"] else []) ++
        (if m < 0 then [" (" ++ toString m ++ ")"] else []) ++
        [" = ", "*" ++ toString ((if a ≤ b then a else b) + m) ++ "*", "\n"])) := by
  constructor <;>
  · by_cases hge : a ≥ b <;> by_cases hle : a ≤ b <;>
      by_cases hm1 : m > 0 <;> by_cases hm2 : m < 0 <;>
      first
        | omega
        | simp [format_adv_dis_roll, hge, hle, hm1, hm2]

/-- C7 counterexample: an outcome carrying five rolls is not rejected by
the stat block formatter: the five rolls are sorted, the lowest is
struck, the next three are summed and the largest is silently ignored,
so a block of six five roll outcomes renders successfully. -/
theorem character_block_five_dice_counterexample :
    format_character_roll (List.replicate 6 ⟨5, [1, 1, 1, 1, 1], 0⟩) "user" =
      .ok "user rolled a stat block:\n~1~ 1 + 1 + 1 = *3*\n~1~ 1 + 1 + 1 = *3*\n~1~ 1 + 1 + 1 = *3*\n~1~ 1 + 1 + 1 = *3*\n~1~ 1 + 1 + 1 = *3*\n~1~ 1 + 1 + 1 = *3*\n" := rfl

/-- C7 amended: the stat block formatter requires exactly six outcomes,
each with at least four rolls, failing otherwise with the corresponding
format error; on valid input each outcome has its rolls sorted
ascending, the lowest struck through and the sum of the second to
fourth smallest emphasized, so the rolls 6, 1, 4, 5 render as the line
striking 1 and emphasizing 15. -/
theorem character_block_shape_amended :
    (∀ (l : List RollOutcome) (u : String), l.length ≠ 6 →
      format_character_roll l u = .error "Incorrect number of rolls in the stat block") ∧
    (∀ (l : List RollOutcome) (u : String), l.length = 6 →
      (∃ o ∈ l, o.rolls.length < 4) →
      format_character_roll l u = .error "Unable to print statblock") ∧
    (∀ (l : List RollOutcome) (u : String), l.length = 6 →
      (∀ o ∈ l, 4 ≤ o.rolls.length) →
      ∃ s, format_character_roll l u = .ok s) ∧
    format_character_roll (List.replicate 6 ⟨16, [6, 1, 4, 5], 0⟩) "user" =
      .ok "user rolled a stat block:\n~1~ 4 + 5 + 6 = *15*\n~1~ 4 + 5 + 6 = *15*\n~1~ 4 + 5 + 6 = *15*\n~1~ 4 + 5 + 6 = *15*\n~1~ 4 + 5 + 6 = *15*\n~1~ 4 + 5 + 6 = *15*\n" := by
  refine ⟨?_, ?_, ?_, rfl⟩
  · intro l u hne
    unfold format_character_roll
    rw [if_pos hne]
  · intro l u hlen hshort
    unfold format_character_roll
    rw [if_neg (by omega), statblock_lines_short l hshort]
  · intro l u hlen hlong
    obtain ⟨body, hbody⟩ := statblock_lines_long l hlong
    exact ⟨_, by unfold format_character_roll; rw [if_neg (by omega), hbody]⟩

/-- C7 witness: the outcome count guard applied to the empty outcome
list, which is rejected with the count error. -/
theorem character_block_shape_amended_witness :
    format_character_roll [] "w" = .error "Incorrect number of rolls in the stat block" :=
  character_block_shape_amended.1 [] "w" (by decide)

end Dicebot
